import Mathlib

/-!
Shallow embedding of the SocialConnect notification subsystem
(src/notifications/{models,views,signals,consumers,serializers}.py).

Users, posts, comments and likes are modelled by Lean structures carrying
the fields the notification code reads.  The database table of notifications
is a `List Notification` to which creation appends; Django model instances
compare by primary key, so user comparisons in signals are on `.id`.
Timestamps are `Nat` (`timezone.now()` passed in explicitly); times of day
are minutes since midnight.  The channel layer's registry of live
connections is a `List (Nat × String)` of (user id, channel name) pairs, and
`group_send` to a user's group produces one delivery per registered channel.
JSON values are an inductive `Json`; `json.loads` is modelled by passing the
parse result (`none` = `JSONDecodeError`); a Python `AttributeError` escaping
the handler is an `Except.error`.
-/

namespace SocialConnect

/-- JSON values, as produced by `json.loads`. -/
inductive Json where
  | null : Json
  | bool : Bool → Json
  | num : Int → Json
  | str : String → Json
  | arr : List Json → Json
  | obj : List (String × Json) → Json

/-- A row of the user table: the fields the notification code reads. -/
structure MUser where
  id : Nat
  username : String
  is_active : Bool
deriving Repr, DecidableEq

/-- A post (posts.models.Post): the fields the notification signals read. -/
structure Post where
  id : Nat
  author : MUser
  content : String
deriving Repr

/-- A comment (posts.models.Comment): the fields the notification signals read. -/
structure Comment where
  id : Nat
  author : MUser
  post : Post
  content : String
deriving Repr

/-- A like (posts.models.Like): the fields the notification signals read. -/
structure Like where
  user : MUser
  post : Post
deriving Repr

/-- A row of the `notifications` table (src/notifications/models.py, class
Notification).  `sender` is a nullable foreign key stored as a user id;
the generic content object is kept as its `object_id`; `data` is the JSON
payload map. -/
structure Notification where
  id : Nat
  recipient : Nat
  sender : Option Nat
  notification_type : String
  title : String
  message : String
  object_id : Option Nat
  data : List (String × Json)
  is_read : Bool
  is_archived : Bool
  created_at : Nat
  read_at : Option Nat

/-- models.py lines 12-18: the `NOTIFICATION_TYPES` choices list. -/
def NOTIFICATION_TYPES : List (String × String) :=
  [("follow", "Follow"), ("like", "Like"), ("comment", "Comment"),
   ("mention", "Mention"), ("system", "System")]

/-- The database's auto-increment primary key for the next inserted row. -/
def nextId (store : List Notification) : Nat :=
  (store.map (·.id)).foldr Nat.max 0 + 1

/-- Resolve a nullable sender id to a username through the user table
(the serializer's `source='sender.username'` join). -/
def senderUsername (users : List MUser) (sender : Option Nat) : String :=
  match sender with
  | none => ""
  | some sid =>
    match users.find? (fun u => u.id == sid) with
    | some u => u.username
    | none => ""

/-- models.py lines 69-82: `Notification.get_notification_text`. -/
def get_notification_text (users : List MUser) (n : Notification) : String :=
  if n.notification_type = "follow" then
    senderUsername users n.sender ++ " started following you"
  else if n.notification_type = "like" then
    senderUsername users n.sender ++ " liked your post"
  else if n.notification_type = "comment" then
    senderUsername users n.sender ++ " commented on your post"
  else if n.notification_type = "mention" then
    senderUsername users n.sender ++ " mentioned you in a comment"
  else if n.notification_type = "system" then
    n.message
  else
    n.message

/-- The fields serialized by `NotificationListSerializer`
(serializers.py lines 23-35): id, sender_username, notification_type,
title, message, notification_text, is_read, is_archived, created_at —
and nothing else (no `data`, no recipient id, no raw sender id). -/
structure NotificationProjection where
  id : Nat
  sender_username : String
  notification_type : String
  title : String
  message : String
  notification_text : String
  is_read : Bool
  is_archived : Bool
  created_at : Nat

/-- serializers.py lines 23-35: serialize one notification for list /
push delivery. -/
def NotificationListSerializer (users : List MUser) (n : Notification) :
    NotificationProjection :=
  { id := n.id
    sender_username := senderUsername users n.sender
    notification_type := n.notification_type
    title := n.title
    message := n.message
    notification_text := get_notification_text users n
    is_read := n.is_read
    is_archived := n.is_archived
    created_at := n.created_at }

/-- Outbound WebSocket frames (consumers.py). -/
inductive Frame where
  | connectionEstablished : String → Nat → Frame
  | pong : Option Json → Frame
  | notificationsCount : Nat → Frame
  | notification : NotificationProjection → Frame
  | error : String → Frame

/-- A frame delivered to one named channel. -/
abbrev Delivery := String × Frame

/-- The channels registered in group `user_{uid}`. -/
def channelsFor (registry : List (Nat × String)) (uid : Nat) : List String :=
  (registry.filter (fun e => e.1 == uid)).map (·.2)

/-- consumers.py lines 102-120: serialize the notification with
`NotificationListSerializer` and `group_send` a `notification` frame to
every channel in the recipient's group. -/
def send_notification_to_user (registry : List (Nat × String))
    (users : List MUser) (uid : Nat) (n : Notification) : List Delivery :=
  (channelsFor registry uid).map
    (fun ch => (ch, Frame.notification (NotificationListSerializer users n)))

/-- models.py lines 84-101: `Notification.create_notification`.  Inserts the
row via `objects.create` (no validation of `notification_type`; `is_read`,
`is_archived`, `read_at` take their defaults) and then pushes the real-time
frame via `send_notification_to_user`.  Returns the new store and the
deliveries. -/
def create_notification (registry : List (Nat × String)) (users : List MUser)
    (now : Nat) (store : List Notification) (recipient : MUser)
    (sender : Option MUser) (ntype title message : String)
    (object_id : Option Nat) (data : List (String × Json)) :
    List Notification × List Delivery :=
  let n : Notification :=
    { id := nextId store
      recipient := recipient.id
      sender := sender.map (·.id)
      notification_type := ntype
      title := title
      message := message
      object_id := object_id
      data := data
      is_read := false
      is_archived := false
      created_at := now
      read_at := none }
  (store ++ [n], send_notification_to_user registry users recipient.id n)

/-- models.py lines 61-67: `Notification.mark_as_read`.  Writes
`is_read := true, read_at := now` only when the notification is unread;
otherwise performs no write. -/
def mark_as_read (now : Nat) (n : Notification) : Notification :=
  if !n.is_read then { n with is_read := true, read_at := some now } else n

/-- views.py lines 66-78: `NotificationMarkAsReadView.post`.
`get_object_or_404(id=notification_id, recipient=request.user)` then
`mark_as_read`; `none` models the 404. -/
def markAsReadView (now nid user : Nat) (store : List Notification) :
    Option (List Notification) :=
  if store.any (fun n => n.id == nid && n.recipient == user) then
    some (store.map (fun n =>
      if n.id == nid && n.recipient == user then mark_as_read now n else n))
  else none

/-- views.py lines 81-96: `NotificationMarkAllAsReadView.post`.  Counts the
recipient's unread notifications, then bulk `update(is_read=True)` — note
the bulk update writes `is_read` only and never touches `read_at`. -/
def markAllRead (user : Nat) (store : List Notification) :
    Nat × List Notification :=
  ((store.filter (fun n => n.recipient == user && !n.is_read)).length,
   store.map (fun n =>
     if n.recipient == user && !n.is_read then { n with is_read := true } else n))

/-- views.py lines 99-112: `NotificationArchiveView.post`.
`save(update_fields=['is_archived'])` after setting `is_archived = True`. -/
def archiveView (nid user : Nat) (store : List Notification) :
    Option (List Notification) :=
  if store.any (fun n => n.id == nid && n.recipient == user) then
    some (store.map (fun n =>
      if n.id == nid && n.recipient == user then { n with is_archived := true } else n))
  else none

/-- views.py lines 115-128: `NotificationUnarchiveView.post`. -/
def unarchiveView (nid user : Nat) (store : List Notification) :
    Option (List Notification) :=
  if store.any (fun n => n.id == nid && n.recipient == user) then
    some (store.map (fun n =>
      if n.id == nid && n.recipient == user then { n with is_archived := false } else n))
  else none

/-- consumers.py lines 91-98: `NotificationConsumer.get_unread_count` —
`filter(recipient=self.user, is_read=False).count()`. -/
def get_unread_count (user : Nat) (store : List Notification) : Nat :=
  (store.filter (fun n => n.recipient == user && !n.is_read)).length

/-- The counts assembled by `NotificationStatsView.get`
(views.py lines 146-170). -/
structure NotificationStats where
  total_notifications : Nat
  unread_count : Nat
  read_count : Nat
  archived_count : Nat
  follow_count : Nat
  like_count : Nat
  comment_count : Nat
  mention_count : Nat
  system_count : Nat
deriving Repr, DecidableEq

/-- views.py lines 146-170: `NotificationStatsView.get`. -/
def notificationStats (user : Nat) (store : List Notification) :
    NotificationStats :=
  let ns := store.filter (fun n => n.recipient == user)
  { total_notifications := ns.length
    unread_count := (ns.filter (fun n => !n.is_read)).length
    read_count := (ns.filter (fun n => n.is_read)).length
    archived_count := (ns.filter (fun n => n.is_archived)).length
    follow_count := (ns.filter (fun n => n.notification_type == "follow")).length
    like_count := (ns.filter (fun n => n.notification_type == "like")).length
    comment_count := (ns.filter (fun n => n.notification_type == "comment")).length
    mention_count := (ns.filter (fun n => n.notification_type == "mention")).length
    system_count := (ns.filter (fun n => n.notification_type == "system")).length }

/-- views.py lines 17-46: `NotificationListView.get_queryset` with no query
parameters — the recipient's notifications. -/
def notificationList (user : Nat) (store : List Notification) :
    List Notification :=
  store.filter (fun n => n.recipient == user)

/-- models.py lines 104-133: `NotificationPreference`.  Fifteen per-category
per-channel booleans (all default `true`) plus the quiet-hours window; times
of day are minutes since midnight. -/
structure NotificationPreference where
  email_follows : Bool := true
  email_likes : Bool := true
  email_comments : Bool := true
  email_mentions : Bool := true
  email_system : Bool := true
  push_follows : Bool := true
  push_likes : Bool := true
  push_comments : Bool := true
  push_mentions : Bool := true
  push_system : Bool := true
  in_app_follows : Bool := true
  in_app_likes : Bool := true
  in_app_comments : Bool := true
  in_app_mentions : Bool := true
  in_app_system : Bool := true
  quiet_hours_enabled : Bool := false
  quiet_hours_start : Option Nat := none
  quiet_hours_end : Option Nat := none
deriving Repr

/-- models.py lines 154-168: `NotificationPreference.is_quiet_hours`, with
`timezone.now().time()` passed in as `current_time`.  (`datetime.time`
values are always truthy in Python 3, so `if start and end` is the
both-not-None test.) -/
def is_quiet_hours (p : NotificationPreference) (current_time : Nat) : Bool :=
  if !p.quiet_hours_enabled then
    false
  else
    match p.quiet_hours_start, p.quiet_hours_end with
    | some s, some e =>
      if s ≤ e then decide (s ≤ current_time) && decide (current_time ≤ e)
      else decide (current_time ≥ s) || decide (current_time ≤ e)
    | _, _ => false

/-- `\w` of the regex `@(\w+)` over the characters the repository uses. -/
def isWordChar (c : Char) : Bool :=
  c.isAlphanum || c == '_'

/-- One left-to-right pass of the regex scan for `@(\w+)`: `acc = some cs`
means a `@` was seen and the word characters `cs` collected so far; a
maximal non-empty run of word characters after a `@` is one captured
name. -/
def scanMentions : List Char → Option (List Char) → List String
  | [], none => []
  | [], some acc => if acc.isEmpty then [] else [String.mk acc]
  | c :: rest, none =>
    if c == '@' then scanMentions rest (some []) else scanMentions rest none
  | c :: rest, some acc =>
    if isWordChar c then scanMentions rest (some (acc ++ [c]))
    else if acc.isEmpty then
      if c == '@' then scanMentions rest (some []) else scanMentions rest none
    else
      String.mk acc ::
        (if c == '@' then scanMentions rest (some []) else scanMentions rest none)

/-- signals.py line 80: `re.findall(r'@(\w+)', content)` — the captured
names of all non-overlapping matches, left to right, duplicates kept. -/
def findMentions (content : List Char) : List String :=
  scanMentions content none

/-- signals.py line 84: `User.objects.get(username=username, is_active=True)`,
`none` modelling `User.DoesNotExist`. -/
def resolveActiveUser (users : List MUser) (name : String) : Option MUser :=
  users.find? (fun u => u.username == name && u.is_active)

/-- posts/models: a 50-character excerpt with an ellipsis marker, as in
`content[:50] + '...' if len(content) > 50 else content`. -/
def excerpt (s : String) : String :=
  if s.length > 50 then String.mk (s.data.take 50) ++ "..." else s

/-- The `for username in mentions:` loop body of
`create_mention_notifications` (signals.py lines 82-105), folded over the
matched names: unresolvable names are skipped (`User.DoesNotExist` caught),
self-mentions and mentions of the post author are suppressed, every other
resolved occurrence creates one `mention` notification. -/
def processMentions (registry : List (Nat × String)) (users : List MUser)
    (now : Nat) (c : Comment) (acc : List Notification × List Delivery) :
    List String → List Notification × List Delivery
  | [] => acc
  | name :: rest =>
    match resolveActiveUser users name with
    | none => processMentions registry users now c acc rest
    | some u =>
      if u.id != c.author.id then
        if u.id != c.post.author.id then
          let r := create_notification registry users now acc.1 u (some c.author)
            "mention" "Mentioned in Comment"
            (c.author.username ++ " mentioned you in a comment")
            (some c.post.id)
            [("post_id", Json.num c.post.id), ("comment_id", Json.num c.id),
             ("comment_content", Json.str (excerpt c.content))]
          processMentions registry users now c (r.1, acc.2 ++ r.2) rest
        else processMentions registry users now c acc rest
      else processMentions registry users now c acc rest

/-- signals.py lines 74-105: `create_mention_notifications`, the
`post_save` receiver for comments. -/
def create_mention_notifications (registry : List (Nat × String))
    (users : List MUser) (now : Nat) (store : List Notification)
    (c : Comment) (created : Bool) : List Notification × List Delivery :=
  if created then
    processMentions registry users now c (store, []) (findMentions c.content.data)
  else (store, [])

/-- signals.py lines 32-49: `create_like_notification`, the `post_save`
receiver for likes — suppressed when the liker is the post author. -/
def create_like_notification (registry : List (Nat × String))
    (users : List MUser) (now : Nat) (store : List Notification)
    (l : Like) (created : Bool) : List Notification × List Delivery :=
  if created then
    if l.user.id != l.post.author.id then
      create_notification registry users now store l.post.author (some l.user)
        "like" "New Like" (l.user.username ++ " liked your post")
        (some l.post.id)
        [("post_id", Json.num l.post.id),
         ("post_content", Json.str (excerpt l.post.content))]
    else (store, [])
  else (store, [])

/-- signals.py lines 52-71: `create_comment_notification`, the `post_save`
receiver for comments — suppressed when the commenter is the post author. -/
def create_comment_notification (registry : List (Nat × String))
    (users : List MUser) (now : Nat) (store : List Notification)
    (c : Comment) (created : Bool) : List Notification × List Delivery :=
  if created then
    if c.author.id != c.post.author.id then
      create_notification registry users now store c.post.author (some c.author)
        "comment" "New Comment" (c.author.username ++ " commented on your post")
        (some c.post.id)
        [("post_id", Json.num c.post.id), ("comment_id", Json.num c.id),
         ("comment_content", Json.str (excerpt c.content)),
         ("post_content", Json.str (excerpt c.post.content))]
    else (store, [])
  else (store, [])

/-- The per-connection lifecycle states of the consumer. -/
inductive ConnState where
  | connecting : ConnState
  | opened : ConnState
  | closed : ConnState
deriving Repr, DecidableEq

/-- consumers.py lines 13-37: `NotificationConsumer.connect`.  `scopeUser`
is `self.scope["user"]` (`none` = `AnonymousUser`).  An anonymous handshake
is closed at once — no group join, no `accept`, no frame; an authenticated
one joins `user_{id}`, accepts, and sends the single
`connection_established` frame. -/
def connect (registry : List (Nat × String)) (scopeUser : Option Nat)
    (channelName : String) :
    ConnState × List (Nat × String) × List Frame :=
  match scopeUser with
  | none => (ConnState.closed, registry, [])
  | some uid =>
    (ConnState.opened, (uid, channelName) :: registry,
     [Frame.connectionEstablished "Connected to notifications" uid])

/-- Python's `d.get(key)` on the parsed value: succeeds only on a JSON
object (returns `none` when the key is absent); on any other value it
raises `AttributeError`. -/
def jsonGet (j : Json) (key : String) : Except String (Option Json) :=
  match j with
  | Json.obj fields => Except.ok ((fields.find? (fun f => f.1 == key)).map (·.2))
  | _ => Except.error "AttributeError"

/-- consumers.py lines 47-72: `NotificationConsumer.receive`.  `parsed` is
the outcome of `json.loads` (`none` = `JSONDecodeError`, which is the only
exception caught — it is answered with an `error` frame and the connection
stays open).  `Except.ok` is a completed handler with its reply frames;
`Except.error` is an exception escaping the handler. -/
def receive (user : Nat) (store : List Notification) (parsed : Option Json) :
    Except String (List Frame) :=
  match parsed with
  | none => Except.ok [Frame.error "Invalid JSON format"]
  | some j =>
    match jsonGet j "type" with
    | Except.error e => Except.error e
    | Except.ok mt =>
      match mt with
      | some (Json.str s) =>
        if s == "ping" then
          match jsonGet j "timestamp" with
          | Except.error e => Except.error e
          | Except.ok ts => Except.ok [Frame.pong ts]
        else if s == "get_notifications" then
          Except.ok [Frame.notificationsCount (get_unread_count user store)]
        else Except.ok []
      | _ => Except.ok []

/-- Specification-side predicate: the occurrence of mention `name` in a
comment by `c.author` on `c.post` resolves to an active user and is not
suppressed (neither a self-mention nor a mention of the post author). -/
def mentionEligible (users : List MUser) (c : Comment) (name : String) : Bool :=
  match resolveActiveUser users name with
  | none => false
  | some u => u.id != c.author.id && u.id != c.post.author.id

/-! Concrete sample data used by witnesses and counterexamples. -/

def aliceU : MUser := ⟨1, "alice", true⟩

def bobU : MUser := ⟨2, "bob", true⟩

def carolU : MUser := ⟨3, "carol", true⟩

def samplePost : Post := ⟨10, carolU, "a post"⟩

def dupComment : Comment := ⟨20, aliceU, samplePost, "@bob @bob"⟩

def wrapPrefs : NotificationPreference :=
  { quiet_hours_enabled := true, quiet_hours_start := some 1320,
    quiet_hours_end := some 360 }

def disabledPrefs : NotificationPreference :=
  { wrapPrefs with quiet_hours_enabled := false }

def sampleUnread : Notification :=
  { id := 1, recipient := 7, sender := none, notification_type := "system",
    title := "t", message := "m", object_id := none, data := [],
    is_read := false, is_archived := false, created_at := 0, read_at := none }

/-! Helper lemmas. -/

theorem mark_as_read_id (t : Nat) (n : Notification) :
    (mark_as_read t n).id = n.id := by
  unfold mark_as_read; split <;> rfl

theorem mark_as_read_recipient (t : Nat) (n : Notification) :
    (mark_as_read t n).recipient = n.recipient := by
  unfold mark_as_read; split <;> rfl

theorem mark_as_read_is_read (t : Nat) (n : Notification) :
    (mark_as_read t n).is_read = true := by
  unfold mark_as_read; split
  · rfl
  · next h => simpa using h

theorem mark_as_read_of_read (t : Nat) (n : Notification)
    (h : n.is_read = true) : mark_as_read t n = n := by
  simp [mark_as_read, h]

theorem mark_as_read_idem (t1 t2 : Nat) (n : Notification) :
    mark_as_read t2 (mark_as_read t1 n) = mark_as_read t1 n :=
  mark_as_read_of_read t2 _ (mark_as_read_is_read t1 n)

theorem length_filter_map_eq {α : Type} (p : α → Bool) (f : α → α)
    (h : ∀ a, p (f a) = p a) (l : List α) :
    ((l.map f).filter p).length = (l.filter p).length := by
  induction l with
  | nil => rfl
  | cons a l ih =>
    simp only [List.map_cons, List.filter_cons, h a]
    split <;> simp [ih]

theorem any_map_eq {α : Type} (p : α → Bool) (f : α → α)
    (h : ∀ a, p (f a) = p a) (l : List α) :
    (l.map f).any p = l.any p := by
  induction l with
  | nil => rfl
  | cons a l ih => simp only [List.map_cons, List.any_cons, h a, ih]

theorem map_fixpoint {α : Type} (f : α → α) (l : List α)
    (h : ∀ a ∈ l, f a = a) : l.map f = l := by
  induction l with
  | nil => rfl
  | cons a l ih =>
    simp only [List.map_cons, h a (List.mem_cons_self a l)]
    rw [ih (fun a ha => h a (List.mem_cons_of_mem _ ha))]

/-- Claim C1 (counterexample): a create call with the kind `"bogus"`, which
is outside the enumerated `NOTIFICATION_TYPES`, does not fail and does
persist — the store grows from empty to one row carrying that kind. -/
theorem create_invalid_kind_cex :
    ((create_notification [] [] 0 [] aliceU none "bogus" "t" "m" none []).1).map
        (fun n => n.notification_type) = ["bogus"]
    ∧ ((create_notification [] [] 0 [] aliceU none "bogus" "t" "m" none []).1).length = 1
    ∧ "bogus" ∉ NOTIFICATION_TYPES.map (fun e => e.1) := by
  refine ⟨rfl, rfl, ?_⟩
  decide

/-- Claim C1 (amended): `create_notification` performs no validation of the
kind at all — for every kind, inside or outside the enumerated set, it
persists exactly one new row with the given fields and the defaults
`is_read = false`, `is_archived = false`, `read_at = none`; the persisted
store never depends on the live-connection registry (the dispatch side
effect), and no preference or quiet-hours input is consulted (none exists
in its signature). -/
theorem create_always_persists :
    ∀ (registry registry2 : List (Nat × String)) (users : List MUser)
      (now : Nat) (store : List Notification) (recipient : MUser)
      (sender : Option MUser) (ntype title message : String)
      (object_id : Option Nat) (data : List (String × Json)),
      (create_notification registry users now store recipient sender ntype
          title message object_id data).1
        = store ++
          [{ id := nextId store, recipient := recipient.id,
             sender := sender.map (·.id), notification_type := ntype,
             title := title, message := message, object_id := object_id,
             data := data, is_read := false, is_archived := false,
             created_at := now, read_at := none }]
      ∧ (create_notification registry users now store recipient sender ntype
            title message object_id data).1
        = (create_notification registry2 users now store recipient sender ntype
            title message object_id data).1 := by
  intro registry registry2 users now store recipient sender ntype title message
    object_id data
  exact ⟨rfl, rfl⟩

/-- Claim C2 (counterexample): the bulk mark-all-read view transitions an
unread notification to read (`is_read = true`) while leaving `read_at`
null, so `read_at` is not non-null after this transition to read. -/
theorem mark_all_read_read_at_cex :
    ((markAllRead 7 [sampleUnread]).2).map (fun n => (n.is_read, n.read_at))
      = [(true, (none : Option Nat))] := by
  rfl

/-- Claim C2 (amended): `read_at` is null until the first transition to
read performed by `mark_as_read`, which sets it to the call's timestamp
together with `is_read`; re-marking an already-read notification with
`mark_as_read` performs no write, so `read_at` is immutable under it.  The
bulk mark-all-read view however leaves every notification's `read_at`
unchanged — it writes `is_read` only — so a notification first read through
the bulk path keeps a null `read_at`. -/
theorem read_at_lifecycle :
    (∀ (t : Nat) (n : Notification), n.is_read = false →
      (mark_as_read t n).read_at = some t ∧ (mark_as_read t n).is_read = true)
  ∧ (∀ (t : Nat) (n : Notification), n.is_read = true → mark_as_read t n = n)
  ∧ (∀ (t1 t2 : Nat) (n : Notification),
      mark_as_read t2 (mark_as_read t1 n) = mark_as_read t1 n)
  ∧ (∀ (user : Nat) (store : List Notification),
      ((markAllRead user store).2).map (fun n => n.read_at)
        = store.map (fun n => n.read_at)) := by
  refine ⟨?_, ?_, ?_, ?_⟩
  · intro t n h
    simp [mark_as_read, h]
  · intro t n h
    exact mark_as_read_of_read t n h
  · intro t1 t2 n
    exact mark_as_read_idem t1 t2 n
  · intro user store
    induction store with
    | nil => rfl
    | cons a l ih =>
      simp only [markAllRead, List.map_cons] at ih ⊢
      rw [ih]
      congr 1
      split <;> rfl

/-- Witness for `read_at_lifecycle` at concrete inputs. -/
theorem read_at_lifecycle_witness :
    (mark_as_read 5 sampleUnread).read_at = some 5
    ∧ mark_as_read 9 { sampleUnread with is_read := true, read_at := some 5 }
      = { sampleUnread with is_read := true, read_at := some 5 } :=
  ⟨(read_at_lifecycle.1 5 sampleUnread rfl).1,
   read_at_lifecycle.2.1 9 { sampleUnread with is_read := true, read_at := some 5 } rfl⟩

/-- Claim C4 (confirmed): marking a notification read through the view is
idempotent — if the first call succeeds (the id belongs to the acting
recipient), a second call succeeds, changes nothing, and the target's
`read_at` is the first call's timestamp when it was unread before. -/
theorem mark_read_idempotent :
    ∀ (now1 now2 nid user : Nat) (store s1 : List Notification),
      markAsReadView now1 nid user store = some s1 →
      markAsReadView now2 nid user s1 = some s1
      ∧ (∀ n ∈ store, n.id = nid → n.recipient = user → n.is_read = false →
          ({ n with is_read := true, read_at := some now1 } : Notification) ∈ s1) := by
  intro now1 now2 nid user store s1 h
  have hkey : ∀ n : Notification,
      ((mark_as_read now1 n).id == nid && (mark_as_read now1 n).recipient == user)
        = (n.id == nid && n.recipient == user) := by
    intro n
    rw [mark_as_read_id, mark_as_read_recipient]
  unfold markAsReadView at h
  split at h
  case isFalse => exact absurd h (by simp)
  case isTrue hAny =>
    have hs1 : s1 = store.map (fun n =>
        if n.id == nid && n.recipient == user then mark_as_read now1 n else n) :=
      (Option.some.inj h).symm
    have hfkey : ∀ n : Notification,
        (((if n.id == nid && n.recipient == user then mark_as_read now1 n else n).id == nid)
          && ((if n.id == nid && n.recipient == user then mark_as_read now1 n else n).recipient == user))
        = (n.id == nid && n.recipient == user) := by
      intro n
      cases hc : (n.id == nid && n.recipient == user) <;> simp [hc, hkey]
    constructor
    · have hA : s1.any (fun n => n.id == nid && n.recipient == user) = true := by
        rw [hs1, any_map_eq _ _ hfkey]
        exact hAny
      have hMap : s1.map (fun n =>
          if n.id == nid && n.recipient == user then mark_as_read now2 n else n) = s1 := by
        apply map_fixpoint
        intro a ha
        rw [hs1] at ha
        obtain ⟨b, _, hb⟩ := List.mem_map.mp ha
        rw [← hb]
        cases hc : (b.id == nid && b.recipient == user) <;>
          simp [hc, hkey, mark_as_read_idem]
      unfold markAsReadView
      rw [if_pos hA, hMap]
    · intro n hn hid hrec hunread
      rw [hs1]
      apply List.mem_map.mpr
      refine ⟨n, hn, ?_⟩
      have hc : (n.id == nid && n.recipient == user) = true := by
        simp [hid, hrec]
      simp only [hc, if_true]
      simp [mark_as_read, hunread]

/-- Witness for `mark_read_idempotent` at concrete inputs. -/
theorem mark_read_idempotent_witness :
    markAsReadView 9 1 7 [{ sampleUnread with is_read := true, read_at := some 5 }]
      = some [{ sampleUnread with is_read := true, read_at := some 5 }]
    ∧ ({ sampleUnread with is_read := true, read_at := some 5 } : Notification)
      ∈ [{ sampleUnread with is_read := true, read_at := some 5 }] := by
  have h : markAsReadView 5 1 7 [sampleUnread]
      = some [{ sampleUnread with is_read := true, read_at := some 5 }] := rfl
  have t := mark_read_idempotent 5 9 1 7 [sampleUnread] _ h
  exact ⟨t.1, t.2 sampleUnread (List.mem_singleton.mpr rfl) rfl rfl rfl⟩

/-- Claim C5 (confirmed): `is_quiet_hours` is false whenever quiet hours
are disabled or start/end are unset; with start ≤ end it holds exactly on
the closed interval [start, end]; with start > end (window wrapping
midnight) exactly when now ≥ start or now ≤ end; in particular with
start = 22:00 and end = 06:00 it is true at 23:00 and 03:00 and false at
12:00. -/
theorem quiet_hours_spec :
    (∀ p t, p.quiet_hours_enabled = false → is_quiet_hours p t = false)
  ∧ (∀ p t, p.quiet_hours_start = none → is_quiet_hours p t = false)
  ∧ (∀ p t, p.quiet_hours_end = none → is_quiet_hours p t = false)
  ∧ (∀ p s e t, p.quiet_hours_enabled = true → p.quiet_hours_start = some s →
      p.quiet_hours_end = some e → s ≤ e →
      (is_quiet_hours p t = true ↔ s ≤ t ∧ t ≤ e))
  ∧ (∀ p s e t, p.quiet_hours_enabled = true → p.quiet_hours_start = some s →
      p.quiet_hours_end = some e → e < s →
      (is_quiet_hours p t = true ↔ t ≥ s ∨ t ≤ e))
  ∧ is_quiet_hours wrapPrefs 1380 = true
  ∧ is_quiet_hours wrapPrefs 180 = true
  ∧ is_quiet_hours wrapPrefs 720 = false := by
  refine ⟨?_, ?_, ?_, ?_, ?_, rfl, rfl, rfl⟩
  · intro p t h
    simp [is_quiet_hours, h]
  · intro p t h
    unfold is_quiet_hours
    split
    · rfl
    · rw [h]
  · intro p t h
    unfold is_quiet_hours
    split
    · rfl
    · rw [h]
      cases p.quiet_hours_start <;> rfl
  · intro p s e t he hs hend hle
    simp [is_quiet_hours, he, hs, hend, hle]
  · intro p s e t he hs hend hlt
    have : ¬ s ≤ e := by omega
    simp [is_quiet_hours, he, hs, hend, this]

theorem create_notification_length (registry : List (Nat × String))
    (users : List MUser) (now : Nat) (store : List Notification)
    (recipient : MUser) (sender : Option MUser) (ntype title message : String)
    (object_id : Option Nat) (data : List (String × Json)) :
    ((create_notification registry users now store recipient sender ntype title
        message object_id data).1).length = store.length + 1 := by
  simp [create_notification]

theorem processMentions_length (registry : List (Nat × String))
    (users : List MUser) (now : Nat) (c : Comment) :
    ∀ (names : List String) (acc : List Notification × List Delivery),
      ((processMentions registry users now c acc names).1).length
        = acc.1.length + (names.filter (mentionEligible users c)).length := by
  intro names
  induction names with
  | nil => intro acc; simp [processMentions]
  | cons name rest ih =>
    intro acc
    rw [processMentions, List.filter_cons]
    cases hr : resolveActiveUser users name with
    | none =>
      simp only [mentionEligible, hr]
      simpa using ih acc
    | some u =>
      simp only [mentionEligible, hr]
      cases h1 : (u.id != c.author.id) with
      | false => simpa [h1] using ih acc
      | true =>
        cases h2 : (u.id != c.post.author.id) with
        | false => simpa [h1, h2] using ih acc
        | true =>
          simp only [h1, h2, Bool.and_self, if_true]
          rw [ih]
          simp [create_notification]
          omega

theorem processMentions_self_all (registry : List (Nat × String))
    (users : List MUser) (now : Nat) (c : Comment) :
    ∀ (names : List String) (acc : List Notification × List Delivery),
      (∀ name ∈ names,
        (resolveActiveUser users name).all (fun u => u.id == c.author.id) = true) →
      processMentions registry users now c acc names = acc := by
  intro names
  induction names with
  | nil => intro acc _; rfl
  | cons name rest ih =>
    intro acc h
    have hname := h name (List.mem_cons_self name rest)
    have hrest := fun n hn => h n (List.mem_cons_of_mem name hn)
    rw [processMentions]
    cases hr : resolveActiveUser users name with
    | none => exact ih acc hrest
    | some u =>
      rw [hr] at hname
      have heq : (u.id == c.author.id) = true := by simpa using hname
      have hne : (u.id != c.author.id) = false := by simp [bne, heq]
      simp only [hne, Bool.false_eq_true, if_false]
      exact ih acc hrest

/-- Claim C3 (counterexample): the matched names are not deduplicated — in
the comment body `"@bob @bob"` the name `bob` is matched twice and, being
resolved and non-suppressed, produces two notifications for user `bob`,
not at most one. -/
theorem mention_duplicate_cex :
    (((create_mention_notifications [] [aliceU, bobU, carolU] 5 [] dupComment
        true).1).filter (fun n => n.recipient == 2)).length = 2 := by
  rfl

/-- Claim C3 (amended): mention extraction scans the comment body for
tokens of `@` followed by one or more word characters; each matched
occurrence (occurrences are not deduplicated) is resolved to an active user
by exact username match, and every resolved, non-suppressed occurrence
produces exactly one notification — so a name matched n times yields n
notifications for that user; occurrences resolving to no active user are
silently skipped and never raise an error. -/
theorem mention_extraction_spec :
    (∀ (registry : List (Nat × String)) (users : List MUser) (now : Nat)
      (store : List Notification) (c : Comment),
      ((create_mention_notifications registry users now store c true).1).length
        = store.length
          + ((findMentions c.content.data).filter (mentionEligible users c)).length)
  ∧ (∀ (registry : List (Nat × String)) (users : List MUser) (now : Nat)
      (c : Comment) (acc : List Notification × List Delivery)
      (name : String) (rest : List String),
      resolveActiveUser users name = none →
      processMentions registry users now c acc (name :: rest)
        = processMentions registry users now c acc rest) := by
  constructor
  · intro registry users now store c
    simp [create_mention_notifications, processMentions_length]
  · intro registry users now c acc name rest h
    rw [processMentions, h]

/-- Witness for `mention_extraction_spec` at concrete inputs. -/
theorem mention_extraction_spec_witness :
    processMentions [] [aliceU, bobU, carolU] 5 dupComment ([], [])
        ["doesnotexist", "bob"]
      = processMentions [] [aliceU, bobU, carolU] 5 dupComment ([], []) ["bob"] :=
  mention_extraction_spec.2 [] [aliceU, bobU, carolU] 5 dupComment ([], [])
    "doesnotexist" ["bob"] rfl

/-- Claim C9 (confirmed): self-directed events never create a
notification — a like by the post author, a comment by the post author,
and mentions all resolving to the comment's own author each leave the
store unchanged and push nothing. -/
theorem self_event_no_notification :
    (∀ (registry : List (Nat × String)) (users : List MUser) (now : Nat)
      (store : List Notification) (l : Like), l.user.id = l.post.author.id →
      create_like_notification registry users now store l true = (store, []))
  ∧ (∀ (registry : List (Nat × String)) (users : List MUser) (now : Nat)
      (store : List Notification) (c : Comment), c.author.id = c.post.author.id →
      create_comment_notification registry users now store c true = (store, []))
  ∧ (∀ (registry : List (Nat × String)) (users : List MUser) (now : Nat)
      (store : List Notification) (c : Comment),
      (∀ name ∈ findMentions c.content.data,
        (resolveActiveUser users name).all (fun u => u.id == c.author.id) = true) →
      create_mention_notifications registry users now store c true = (store, [])) := by
  refine ⟨?_, ?_, ?_⟩
  · intro registry users now store l h
    simp [create_like_notification, h]
  · intro registry users now store c h
    simp [create_comment_notification, h]
  · intro registry users now store c h
    simp only [create_mention_notifications, if_true]
    exact processMentions_self_all registry users now c _ _ h

def selfPost : Post := ⟨11, aliceU, "my post"⟩

def selfLike : Like := ⟨aliceU, selfPost⟩

def selfComment : Comment := ⟨21, aliceU, selfPost, "@alice"⟩

/-- Witness for `self_event_no_notification` at concrete inputs. -/
theorem self_event_no_notification_witness :
    create_like_notification [] [aliceU] 0 [] selfLike true = ([], [])
    ∧ create_comment_notification [] [aliceU] 0 [] selfComment true = ([], [])
    ∧ create_mention_notifications [] [aliceU] 0 [] selfComment true = ([], []) :=
  ⟨self_event_no_notification.1 [] [aliceU] 0 [] selfLike rfl,
   self_event_no_notification.2.1 [] [aliceU] 0 [] selfComment rfl,
   self_event_no_notification.2.2 [] [aliceU] 0 [] selfComment (by decide)⟩

/-- Witness for `quiet_hours_spec` at concrete inputs. -/
theorem quiet_hours_spec_witness :
    is_quiet_hours disabledPrefs 1380 = false
    ∧ is_quiet_hours wrapPrefs 1380 = true :=
  ⟨quiet_hours_spec.1 disabledPrefs 1380 rfl,
   (quiet_hours_spec.2.2.2.2.1 wrapPrefs 1320 360 1380 rfl rfl rfl (by omega)).mpr
     (Or.inl (by omega))⟩

theorem map_comp_congr {α β : Type} (f : α → α) (g : α → β) (l : List α)
    (h : ∀ a, g (f a) = g a) : (l.map f).map g = l.map g := by
  induction l with
  | nil => rfl
  | cons a l ih => simp only [List.map_cons, h a, ih]

theorem filter_and_comm {α : Type} (p q : α → Bool) (l : List α) :
    (l.filter fun a => p a && q a) = (l.filter fun a => q a && p a) := by
  induction l with
  | nil => rfl
  | cons a l ih =>
    cases hp : p a <;> cases hq : q a <;> simp [List.filter_cons, hp, hq, ih]

theorem stats_unread_eq (u : Nat) (s : List Notification) :
    (notificationStats u s).unread_count = get_unread_count u s := by
  simp only [notificationStats, get_unread_count, List.filter_filter]
  rw [filter_and_comm]

/-- Claim C6 (confirmed): a persisted notification is dispatched as one
`notification` frame per live connection registered for the recipient,
carrying the `NotificationListSerializer` projection; the projection omits
the payload map, the recipient id and the raw sender id (notifications
differing only there serialize identically); with no live connections the
dispatch output is empty while the stored notification is unaffected by
the registry and retrievable through the list view. -/
theorem dispatch_spec :
    (∀ (registry : List (Nat × String)) (users : List MUser) (now : Nat)
      (store : List Notification) (recipient : MUser) (sender : Option MUser)
      (ntype title message : String) (object_id : Option Nat)
      (data : List (String × Json)),
      ∃ n : Notification,
        (create_notification registry users now store recipient sender ntype
            title message object_id data).1 = store ++ [n]
        ∧ (create_notification registry users now store recipient sender ntype
            title message object_id data).2
          = (channelsFor registry recipient.id).map (fun ch =>
              (ch, Frame.notification (NotificationListSerializer users n)))
        ∧ n ∈ notificationList recipient.id
            (create_notification registry users now store recipient sender ntype
              title message object_id data).1)
  ∧ (∀ (registry : List (Nat × String)) (users : List MUser) (now : Nat)
      (store : List Notification) (recipient : MUser) (sender : Option MUser)
      (ntype title message : String) (object_id : Option Nat)
      (data : List (String × Json)),
      channelsFor registry recipient.id = [] →
      (create_notification registry users now store recipient sender ntype title
          message object_id data).2 = []
      ∧ ∀ registry2,
          (create_notification registry users now store recipient sender ntype
            title message object_id data).1
          = (create_notification registry2 users now store recipient sender ntype
              title message object_id data).1)
  ∧ (∀ (users : List MUser) (n1 n2 : Notification), n1.id = n2.id →
      n1.sender = n2.sender → n1.notification_type = n2.notification_type →
      n1.title = n2.title → n1.message = n2.message → n1.is_read = n2.is_read →
      n1.is_archived = n2.is_archived → n1.created_at = n2.created_at →
      NotificationListSerializer users n1 = NotificationListSerializer users n2) := by
  refine ⟨?_, ?_, ?_⟩
  · intro registry users now store recipient sender ntype title message object_id data
    refine ⟨_, rfl, rfl, ?_⟩
    apply List.mem_filter.mpr
    exact ⟨List.mem_append_right _ (List.mem_singleton.mpr rfl), by simp⟩
  · intro registry users now store recipient sender ntype title message object_id
      data h
    constructor
    · simp [create_notification, send_notification_to_user, h]
    · intro registry2
      rfl
  · intro users n1 n2 h1 h2 h3 h4 h5 h6 h7 h8
    simp only [NotificationListSerializer, get_notification_text, h1, h2, h3,
      h4, h5, h6, h7, h8]

def cexN1 : Notification := { sampleUnread with recipient := 7 }

def cexN2 : Notification :=
  { sampleUnread with
      recipient := 8, object_id := some 3, data := [("k", Json.str "v")] }

/-- Witness for `dispatch_spec` at concrete inputs. -/
theorem dispatch_spec_witness :
    (create_notification [] [] 0 [] aliceU none "system" "t" "m" none []).2 = []
    ∧ NotificationListSerializer [] cexN1 = NotificationListSerializer [] cexN2 :=
  ⟨(dispatch_spec.2.1 [] [] 0 [] aliceU none "system" "t" "m" none [] rfl).1,
   dispatch_spec.2.2 [] cexN1 cexN2 rfl rfl rfl rfl rfl rfl rfl rfl⟩

/-- Claim C7 (confirmed): an anonymous handshake never reaches the open
state — the connection is closed at once, the registry is unchanged (never
joined to any user group) and no frame is sent; an authenticated handshake
opens, is registered, and its entire connect output is exactly one
`connection_established` frame carrying the user id, so that frame
precedes any other outbound traffic. -/
theorem connect_lifecycle :
    (∀ (registry : List (Nat × String)) (ch : String),
      connect registry none ch = (ConnState.closed, registry, []))
  ∧ (∀ (registry : List (Nat × String)) (ch : String) (uid : Nat),
      (connect registry (some uid) ch).1 = ConnState.opened
      ∧ (connect registry (some uid) ch).2.2
        = [Frame.connectionEstablished "Connected to notifications" uid]
      ∧ (uid, ch) ∈ (connect registry (some uid) ch).2.1) :=
  ⟨fun _ _ => rfl, fun _ _ _ => ⟨rfl, rfl, List.mem_cons_self _ _⟩⟩

/-- Claim C8 (counterexample): the payload `42` parses as JSON, its frame
kind is unrecognized, yet the handler neither ignores it silently nor
answers with an `error` frame — the `AttributeError` raised by `.get` on a
non-dict escapes `receive` uncaught. -/
theorem receive_nondict_cex :
    receive 0 [] (some (Json.num 42)) = Except.error "AttributeError"
    ∧ receive 0 [] (some (Json.num 42)) ≠ Except.ok []
    ∧ receive 0 [] (some (Json.num 42))
      ≠ Except.ok [Frame.error "Invalid JSON format"] :=
  ⟨rfl, fun h => Except.noConfusion h, fun h => Except.noConfusion h⟩

/-- Claim C8 (amended): while open, an unparseable payload is answered
with an `error` frame (and only `JSONDecodeError` is caught, so the
connection stays open); a parsed JSON object with type `ping` is answered
with a `pong` echoing the client timestamp field verbatim; one with type
`get_notifications` is answered with the recipient's current unread count;
one with any other (or missing, or non-string) type is silently ignored;
but a parsed payload that is not a JSON object raises an uncaught
`AttributeError` instead of being ignored. -/
theorem receive_spec :
    (∀ (user : Nat) (store : List Notification),
      receive user store none = Except.ok [Frame.error "Invalid JSON format"])
  ∧ (∀ (user : Nat) (store : List Notification) (fields : List (String × Json)),
      jsonGet (Json.obj fields) "type" = Except.ok (some (Json.str "ping")) →
      receive user store (some (Json.obj fields))
        = Except.ok [Frame.pong ((fields.find? (fun f => f.1 == "timestamp")).map (·.2))])
  ∧ (∀ (user : Nat) (store : List Notification) (fields : List (String × Json)),
      jsonGet (Json.obj fields) "type"
        = Except.ok (some (Json.str "get_notifications")) →
      receive user store (some (Json.obj fields))
        = Except.ok [Frame.notificationsCount (get_unread_count user store)])
  ∧ (∀ (user : Nat) (store : List Notification) (fields : List (String × Json))
      (s : String),
      jsonGet (Json.obj fields) "type" = Except.ok (some (Json.str s)) →
      s ≠ "ping" → s ≠ "get_notifications" →
      receive user store (some (Json.obj fields)) = Except.ok [])
  ∧ (∀ (user : Nat) (store : List Notification) (fields : List (String × Json))
      (mt : Option Json),
      jsonGet (Json.obj fields) "type" = Except.ok mt →
      (∀ s, mt ≠ some (Json.str s)) →
      receive user store (some (Json.obj fields)) = Except.ok [])
  ∧ (∀ (user : Nat) (store : List Notification) (j : Json),
      (∀ fields, j ≠ Json.obj fields) →
      receive user store (some j) = Except.error "AttributeError") := by
  refine ⟨fun _ _ => rfl, ?_, ?_, ?_, ?_, ?_⟩
  · intro user store fields h
    have h' : (fields.find? (fun f => f.1 == "type")).map (·.2)
        = some (Json.str "ping") := by
      simpa [jsonGet] using h
    simp [receive, jsonGet, h']
  · intro user store fields h
    have h' : (fields.find? (fun f => f.1 == "type")).map (·.2)
        = some (Json.str "get_notifications") := by
      simpa [jsonGet] using h
    simp [receive, jsonGet, h']
  · intro user store fields s h hs1 hs2
    have h' : (fields.find? (fun f => f.1 == "type")).map (·.2)
        = some (Json.str s) := by
      simpa [jsonGet] using h
    have hb1 : (s == "ping") = false := by simp [hs1]
    have hb2 : (s == "get_notifications") = false := by simp [hs2]
    simp [receive, jsonGet, h', hb1, hb2]
  · intro user store fields mt h hm
    have h' : (fields.find? (fun f => f.1 == "type")).map (·.2) = mt := by
      simpa [jsonGet] using h
    cases mt with
    | none => simp [receive, jsonGet, h']
    | some jv =>
      cases jv with
      | str s => exact absurd rfl (hm s)
      | null => simp [receive, jsonGet, h']
      | bool b => simp [receive, jsonGet, h']
      | num n => simp [receive, jsonGet, h']
      | arr xs => simp [receive, jsonGet, h']
      | obj fs => simp [receive, jsonGet, h']
  · intro user store j hj
    cases j with
    | obj fields => exact absurd rfl (hj fields)
    | null => rfl
    | bool b => rfl
    | num n => rfl
    | str s => rfl
    | arr xs => rfl

def pingMsg : List (String × Json) :=
  [("type", Json.str "ping"), ("timestamp", Json.num 5)]

/-- Witness for `receive_spec` at concrete inputs. -/
theorem receive_spec_witness :
    receive 0 [] none = Except.ok [Frame.error "Invalid JSON format"]
    ∧ receive 0 [] (some (Json.obj pingMsg))
      = Except.ok [Frame.pong (some (Json.num 5))]
    ∧ receive 3 [] (some (Json.obj [("type", Json.str "subscribe")]))
      = Except.ok []
    ∧ receive 0 [] (some (Json.str "hi")) = Except.error "AttributeError" :=
  ⟨receive_spec.1 0 [],
   receive_spec.2.1 0 [] pingMsg rfl,
   receive_spec.2.2.2.1 3 [] [("type", Json.str "subscribe")] "subscribe" rfl
     (by decide) (by decide),
   receive_spec.2.2.2.2.2 0 [] (Json.str "hi")
     (fun fields h => Json.noConfusion h)⟩

/-- Claim C10 (confirmed): archiving or unarchiving writes only the
`is_archived` flag — every other field of every row, including `is_read`
and `read_at`, is unchanged — and therefore the unread count computed by
the live connection's `get_notifications` reply and the stats view, both
of which filter on `is_read` alone, are unchanged: an archived-but-unread
notification still counts as unread. -/
theorem archive_frame_effect :
    ∀ (nid user : Nat) (store s2 : List Notification),
      archiveView nid user store = some s2 ∨ unarchiveView nid user store = some s2 →
      (s2.map (fun n => (n.id, n.recipient, n.sender, n.notification_type,
          n.title, n.message, n.object_id, n.data, n.is_read, n.created_at,
          n.read_at))
        = store.map (fun n => (n.id, n.recipient, n.sender, n.notification_type,
            n.title, n.message, n.object_id, n.data, n.is_read, n.created_at,
            n.read_at)))
      ∧ (∀ u2, get_unread_count u2 s2 = get_unread_count u2 store)
      ∧ (∀ u2, (notificationStats u2 s2).unread_count
          = (notificationStats u2 store).unread_count) := by
  intro nid user store s2 h
  have hform : ∃ b : Bool, s2 = store.map (fun n =>
      if n.id == nid && n.recipient == user then { n with is_archived := b }
      else n) := by
    rcases h with h | h
    · unfold archiveView at h
      split at h
      · exact ⟨true, (Option.some.inj h).symm⟩
      · exact absurd h (by simp)
    · unfold unarchiveView at h
      split at h
      · exact ⟨false, (Option.some.inj h).symm⟩
      · exact absurd h (by simp)
  obtain ⟨b, hs2⟩ := hform
  subst hs2
  have hunread : ∀ u2, get_unread_count u2 (store.map (fun n =>
      if n.id == nid && n.recipient == user then { n with is_archived := b }
      else n)) = get_unread_count u2 store := by
    intro u2
    unfold get_unread_count
    apply length_filter_map_eq
    intro n
    cases hc : (n.id == nid && n.recipient == user) <;> simp [hc]
  refine ⟨?_, hunread, ?_⟩
  · apply map_comp_congr
    intro n
    cases hc : (n.id == nid && n.recipient == user) <;> simp [hc]
  · intro u2
    rw [stats_unread_eq, stats_unread_eq]
    exact hunread u2

/-- Witness for `archive_frame_effect` at concrete inputs. -/
theorem archive_frame_effect_witness :
    get_unread_count 7 [{ sampleUnread with is_archived := true }]
      = get_unread_count 7 [sampleUnread] :=
  (archive_frame_effect 1 7 [sampleUnread]
      [{ sampleUnread with is_archived := true }] (Or.inl (by rfl))).2.1 7

end SocialConnect
